import Mathlib

/-!
# HC-SR04 kernel driver: shallow embedding and verified properties

The definitions below embed `hcsr04_driver.c` (the measurement path
`hcsr04_read` with its interrupt handler, and the device table with
`hcsr04_probe` / `hcsr04_remove` / `hcsr04_open` / `hcsr04_release`).

Conventions of the embedding:

* C `int` and `s64` values are `Int`; the places where the C code narrows a
  value (`int time_difference = s64 - s64`) wrap explicitly.
* Pointers are modelled by their classification (`KPtr`): `NULL`, an
  `ERR_PTR(-errno)` value, or a valid object.
* Every answer of the kernel to the driver (return values of `request_irq`,
  `gpiod_direction_output`, the wait on the completion, ...) is an explicit
  input of the embedded function.
* `printk` calls have no effect on the modelled state and are omitted.
-/

set_option linter.unusedVariables false

namespace Hcsr04

/-! ## Constants -/

/-- Capacity of the device table: `#define MAX_DEVICES_COUNT 10`. -/
def MAX_DEVICES_COUNT : Nat := 10

/-- Linux `errno-base.h`: no such file or directory. -/
def ENOENT : Int := 2
/-- Linux `errno-base.h`: device or resource busy. -/
def EBUSY : Int := 16
/-- Linux `errno-base.h`: no such device. -/
def ENODEV : Int := 19
/-- Linux `errno-base.h`: invalid argument. -/
def EINVAL : Int := 22
/-- Linux `errno.h` (asm-generic): no message of desired type. -/
def ENOMSG : Int := 42
/-- Linux `linux/errno.h`: restart the system call (returned when a wait is killed). -/
def ERESTARTSYS : Int := 512

/-- Macro `MKDEV(ma, mi)` of `linux/kdev_t.h`: `(ma << 20) | mi`. -/
def MKDEV (ma mi : Nat) : Nat := (ma <<< 20) ||| mi

/-! ## Machine integers -/

/-- Value of a 64-bit two's complement integer holding `x` (the `s64` result of
`measurement_end - measurement_start`). -/
def wrap_s64 (x : Int) : Int := (x + 2 ^ 63) % 2 ^ 64 - 2 ^ 63

/-- Value of a 32-bit two's complement integer holding `x` (conversion to C `int`). -/
def wrap_s32 (x : Int) : Int := (x + 2 ^ 31) % 2 ^ 32 - 2 ^ 31

/-- Bit pattern, as an unsigned value `0..255`, of the `char` that stores `v`. -/
def to_char (v : Int) : Nat := (v % 256).toNat

/-! ## Data model -/

/-- Classification of a kernel pointer: `NULL`, `ERR_PTR(-errno)` or a valid object. -/
inductive KPtr where
  | null
  | err (errno : Nat)
  | valid (id : Nat)
deriving DecidableEq, Repr

/-- Macro `IS_ERR(ptr)` of `linux/err.h`. -/
def IS_ERR : KPtr → Bool
  | .err _ => true
  | _ => false

/-- Macro `PTR_ERR(ptr)`: the negative errno carried by an error pointer. -/
def PTR_ERR : KPtr → Int
  | .err e => -(e : Int)
  | .null => 0
  | .valid id => (id : Int)

/-- Record `struct hcsr04_data`. `completion` is the `done` counter of the
`struct completion`, `lock` tells whether the mutex is held, `device` is the
`platform_device` pointer (`none` is `NULL`). -/
structure hcsr04_data where
  in_use : Bool
  name : Option String
  device_no : Nat
  device : Option Nat
  echo_gpio : KPtr
  trigger_gpio : KPtr
  irq_number : Nat
  completion : Nat
  lock : Bool
  measurement_start : Int
  measurement_end : Int
deriving DecidableEq, Repr

/-- A zero-initialised slot of the static array `hcsr04_devices`. -/
def hcsr04_data_zero : hcsr04_data :=
  { in_use := false, name := none, device_no := 0, device := none,
    echo_gpio := KPtr.null, trigger_gpio := KPtr.null, irq_number := 0,
    completion := 0, lock := false, measurement_start := 0, measurement_end := 0 }

/-- Table `static struct hcsr04_data hcsr04_devices [MAX_DEVICES_COUNT];` at module load. -/
def hcsr04_devices_init : List hcsr04_data :=
  List.replicate MAX_DEVICES_COUNT hcsr04_data_zero

/-! ## Interrupt handler -/

/-- Function `hcsr04_interrupt_handler`: `echo_value` is what `gpiod_get_value(device->echo_gpio)`
returns, `now` is what `ktime_get_boottime_ns()` returns. `complete()` increments the
`done` counter of the completion. -/
def hcsr04_interrupt_handler (device : hcsr04_data) (echo_value : Int) (now : Int) :
    hcsr04_data :=
  if echo_value = 0 then
    if device.measurement_start ≠ -1 then
      { device with measurement_end := now, completion := device.completion + 1 }
    else
      device
  else
    { device with measurement_start := now }

/-! ## Measurement -/

/-- Function `hcsr04_measurement_check`. -/
def hcsr04_measurement_check (distance_mm : Int) : Bool :=
  let MAX_MEASURED_DISTANCE_MM : Int := 4000
  let MIN_MEASURED_DISTANCE_MM : Int := 20
  if distance_mm < (MAX_MEASURED_DISTANCE_MM + 1000) ∧
      distance_mm > MIN_MEASURED_DISTANCE_MM - 15 then
    true
  else
    false

/-- Lines 197-198 of `hcsr04_read`:
`int time_difference = device->measurement_end - device->measurement_start;`
(an `s64` difference stored in an `int`) and
`distance_mm = (time_difference / 1000) / 53;` (C division truncates toward zero). -/
def hcsr04_distance_mm (measurement_start measurement_end : Int) : Int :=
  let time_difference : Int := wrap_s32 (wrap_s64 (measurement_end - measurement_start))
  Int.tdiv (Int.tdiv time_difference 1000) 53

/-- Hardware and locking operations issued by `hcsr04_read`, in program order. -/
inductive Op where
  | mutex_lock
  | mutex_unlock
  | request_irq (irq : Nat)
  | free_irq (irq : Nat)
  | reinit_completion
  | gpiod_direction_output (value : Nat)
  | usleep_range (lo hi : Nat)
  | wait_for_completion_killable_timeout (timeout_ms : Nat)
  | write_user_buffer (index : Nat) (byte : Nat)
deriving DecidableEq, Repr

/-- What the reader observes when `wait_for_completion_killable_timeout` returns: its
return value and the fields the interrupt handler writes concurrently. -/
structure WaitOutcome where
  result : Int
  completion : Nat
  measurement_start : Int
  measurement_end : Int
deriving DecidableEq, Repr

/-- Answers of the kernel to one `hcsr04_read` call. `wait timeout_ms device` is the
outcome of the wait started with the armed `device` and a deadline of `timeout_ms`
milliseconds (the argument of `msecs_to_jiffies`). -/
structure ReadEnv where
  gpiod_to_irq : Int
  request_irq : Int
  trigger_high : Int
  trigger_low : Int
  wait : Nat → hcsr04_data → WaitOutcome

/-- State at the exit of `hcsr04_read`. -/
structure ReadExit where
  result : Int
  device : hcsr04_data
  user_buffer : Option (List Nat)
  irq_requested : Bool
  ops : List Op
deriving DecidableEq, Repr

/-- Lines 185-211 of `hcsr04_read`: from `free_irq`, executed when the wait has
returned, to the end of the `do { ... } while(0)` block. `outcome` is what the wait
returned and what the handler left in the slot; `ops` are the operations issued so far. -/
def hcsr04_read_resolve (device : hcsr04_data) (buffer : List Nat) (count : Nat)
    (ops : List Op) (outcome : WaitOutcome) : ReadExit :=
  let device := { device with completion := outcome.completion,
                              measurement_start := outcome.measurement_start,
                              measurement_end := outcome.measurement_end }
  let result := outcome.result
  let ops := ops ++ [Op.free_irq device.irq_number]
  if result ≤ 0 then
    { result := result, device := device, user_buffer := some buffer,
      irq_requested := false, ops := ops }
  else if device.measurement_start = 1 ∨ device.measurement_end = 1 then
    { result := ENOMSG, device := device, user_buffer := some buffer,
      irq_requested := false, ops := ops }
  else
    let distance_mm := hcsr04_distance_mm device.measurement_start device.measurement_end
    if !hcsr04_measurement_check distance_mm then
      { result := ENOMSG, device := device, user_buffer := some buffer,
        irq_requested := false, ops := ops }
    else
      let byte0 := to_char (Int.land (Int.shiftRight distance_mm 8) 0xFF)
      let byte1 := to_char (Int.land distance_mm 0xFF)
      let buffer := (buffer.set 0 byte0).set 1 byte1
      { result := (count : Int), device := device, user_buffer := some buffer,
        irq_requested := false,
        ops := ops ++ [Op.write_user_buffer 0 byte0, Op.write_user_buffer 1 byte1] }

/-- The `do { ... } while(0)` block of `hcsr04_read`, entered with the mutex held and a
non-NULL `device`. `DEVICE_READ_TIMEOUT_MS` is the module parameter; `user_buffer` is
`none` for a NULL pointer, otherwise the bytes of the caller's buffer. -/
def hcsr04_read_block (DEVICE_READ_TIMEOUT_MS : Nat) (env : ReadEnv) (device : hcsr04_data)
    (user_buffer : Option (List Nat)) (count : Nat) : ReadExit :=
  if count ≠ 2 then
    { result := EINVAL, device := device, user_buffer := user_buffer,
      irq_requested := false, ops := [] }
  else
    match user_buffer with
    | none =>
      { result := EINVAL, device := device, user_buffer := none,
        irq_requested := false, ops := [] }
    | some buffer =>
      let device := { device with irq_number := (env.gpiod_to_irq % 2 ^ 32).toNat }
      let result := env.request_irq
      let ops := [Op.request_irq device.irq_number]
      if result ≠ 0 then
        { result := result, device := device, user_buffer := some buffer,
          irq_requested := false, ops := ops }
      else
        let device := { device with completion := 0 }
        let device := { device with measurement_start := -1 }
        let device := { device with measurement_end := -1 }
        let result := env.trigger_high
        let ops := ops ++ [Op.reinit_completion, Op.gpiod_direction_output 1]
        if result ≠ 0 then
          { result := result, device := device, user_buffer := some buffer,
            irq_requested := true, ops := ops }
        else
          let result := env.trigger_low
          let ops := ops ++ [Op.usleep_range 10 20, Op.gpiod_direction_output 0]
          if result ≠ 0 then
            { result := result, device := device, user_buffer := some buffer,
              irq_requested := true, ops := ops }
          else
            let outcome := env.wait 100 device
            let ops := ops ++ [Op.wait_for_completion_killable_timeout 100]
            hcsr04_read_resolve device buffer count ops outcome

/-- Function `hcsr04_read`. `private_data` is `File->private_data`; with a NULL pointer the
initial `mutex_lock(&device->lock)` dereferences it before the `!device` test, which
is modelled as `none`. -/
def hcsr04_read (DEVICE_READ_TIMEOUT_MS : Nat) (env : ReadEnv)
    (private_data : Option hcsr04_data) (user_buffer : Option (List Nat)) (count : Nat) :
    Option ReadExit :=
  match private_data with
  | none => none
  | some device =>
    let device := { device with lock := true }
    let exit := hcsr04_read_block DEVICE_READ_TIMEOUT_MS env device user_buffer count
    some { exit with device := { exit.device with lock := false },
                     ops := [Op.mutex_lock] ++ exit.ops ++ [Op.mutex_unlock] }

/-! ## Sequential model of the echo line during the wait -/

/-- Kernel contract of `wait_for_completion_killable_timeout`, as a function of the
`done` counter when the wait ends: a completed wait consumes one `done` and returns the
remaining jiffies (at least 1); otherwise it returns `-ERESTARTSYS` when a fatal signal
ended the wait and `0` when the deadline passed. -/
def wait_for_completion_killable_timeout (done : Nat) (fatal_signal : Bool)
    (jiffies_left : Nat) : Int × Nat :=
  if done > 0 then
    ((max jiffies_left 1 : Nat), done - 1)
  else if fatal_signal then
    (-ERESTARTSYS, done)
  else
    (0, done)

/-- Runs `hcsr04_interrupt_handler` once per delivered interrupt; each interrupt is the
pair of the echo level the handler reads and the clock value it would record. -/
def irq_window (edges : List (Int × Int)) (device : hcsr04_data) : hcsr04_data :=
  edges.foldl (fun d e => hcsr04_interrupt_handler d e.1 e.2) device

/-- Activity on the echo line between arming and the end of the wait: the interrupts
delivered (in order), whether a fatal signal arrives, and the jiffies left on
completion. -/
structure EchoLine where
  edges : List (Int × Int)
  fatal_signal : Bool
  jiffies_left : Nat

/-- The wait of `hcsr04_read` when the handler runs, uninterrupted, once for every
interrupt of `line` after the device was armed. -/
def EchoLine.wait (line : EchoLine) (timeout_ms : Nat) (device : hcsr04_data) :
    WaitOutcome :=
  let device := irq_window line.edges device
  let r := wait_for_completion_killable_timeout device.completion line.fatal_signal
    line.jiffies_left
  { result := r.1, completion := r.2,
    measurement_start := device.measurement_start,
    measurement_end := device.measurement_end }

/-! ## Device table -/

/-- The loop shared by the three lookups:
`for (i = 0; ...) if (p(hcsr04_devices[i])) { result = &hcsr04_devices[i]; break; }`,
returning the index of the slot found, `none` for `NULL`. -/
def find_slot (p : hcsr04_data → Bool) : List hcsr04_data → Nat → Option Nat
  | [], _ => none
  | d :: ds, i => if p d then some i else find_slot p ds (i + 1)

/-- Function `hcsr04_get_by_devt`; the result is the index of the slot. -/
def hcsr04_get_by_devt (devices : List hcsr04_data) (dev : Nat) : Option Nat :=
  find_slot (fun d => d.device_no == dev) (devices.take MAX_DEVICES_COUNT) 0

/-- Function `hcsr04_get_data`; `pdev` is the platform device pointer looked for. -/
def hcsr04_get_data (devices : List hcsr04_data) (pdev : Option Nat) : Option Nat :=
  find_slot (fun d => d.device == pdev) (devices.take MAX_DEVICES_COUNT) 0

/-- Function `hcsr04_get_not_used`; the result is the index of the slot. -/
def hcsr04_get_not_used (devices : List hcsr04_data) : Option Nat :=
  find_slot (fun d => d.in_use == false) (devices.take MAX_DEVICES_COUNT) 0

/-- Answers of the platform and of the kernel to one `hcsr04_probe` call: the `label`
property (`none` when `device_property_read_string` fails), presence of the two gpio
properties, and the pointers returned by `device_create` and the two `gpiod_get`. -/
structure ProbeEnv where
  label : Option String
  echo_gpio_present : Bool
  trigger_gpio_present : Bool
  device_create : KPtr
  gpiod_get_echo : KPtr
  gpiod_get_trigger : KPtr
deriving DecidableEq, Repr

/-- The `do { ... } while(0)` block of `hcsr04_probe`: creates the node and takes the
pins of the slot, returning `result` and the slot. -/
def hcsr04_probe_block (env : ProbeEnv) (device : hcsr04_data) : Int × hcsr04_data :=
  if env.device_create = KPtr.null then
    (EBUSY, device)
  else
    let device := { device with echo_gpio := env.gpiod_get_echo }
    if IS_ERR device.echo_gpio then
      (-1 * PTR_ERR device.echo_gpio, device)
    else
      let device := { device with trigger_gpio := env.gpiod_get_trigger }
      if IS_ERR device.trigger_gpio then
        (-1 * PTR_ERR device.trigger_gpio, device)
      else
        (0, device)

/-- Function `hcsr04_probe` for the platform device `pdev`, with `DRIVER_MAJOR` as registered at
module load. `device` is the slot `hcsr04_devices[minor]` the pointer returned by
`hcsr04_get_not_used` designates; every exit writes it back. Returns the return value
and the device table. -/
def hcsr04_probe (DRIVER_MAJOR : Nat) (devices : List hcsr04_data) (pdev : Nat)
    (env : ProbeEnv) : Int × List hcsr04_data :=
  match hcsr04_get_not_used devices with
  | none => (EBUSY, devices)
  | some minor =>
    let device := devices.getD minor hcsr04_data_zero
    match env.label with
    | none => (ENOENT, devices)
    | some label =>
      let device := { device with name := some label }
      if !env.echo_gpio_present then
        (ENOENT, devices.set minor device)
      else if !env.trigger_gpio_present then
        (ENOENT, devices.set minor device)
      else
        let device := { device with lock := false }
        let device := { device with device := some pdev }
        let device := { device with device_no := MKDEV DRIVER_MAJOR minor }
        let block := hcsr04_probe_block env device
        let result := block.1
        let device := block.2
        let device := { device with in_use := true }
        let device := { device with completion := 0 }
        (result, devices.set minor device)

/-- Function `hcsr04_remove` for the platform device `pdev`. When `hcsr04_get_data` returns
`NULL` the function dereferences it (`device->name`, `device->in_use = false`), which
is modelled as `none`. -/
def hcsr04_remove (devices : List hcsr04_data) (pdev : Nat) :
    Option (Int × List hcsr04_data) :=
  match hcsr04_get_data devices (some pdev) with
  | none => none
  | some i =>
    let device := devices.getD i hcsr04_data_zero
    let device := { device with in_use := false }
    let device := { device with device := none }
    let device := { device with echo_gpio := KPtr.null }
    let device := { device with trigger_gpio := KPtr.null }
    let device := { device with name := none }
    some (0, devices.set i device)

/-- Function `hcsr04_open` on a node whose `inode->i_rdev` is `i_rdev`. The slot mutex is taken
and released around the assignment. Returns the return value, the device table and
`filep->private_data` (the slot index; `none` when it is not assigned). -/
def hcsr04_open (devices : List hcsr04_data) (i_rdev : Nat) :
    Int × List hcsr04_data × Option Nat :=
  match hcsr04_get_by_devt devices i_rdev with
  | none => (ENODEV, devices, none)
  | some i =>
    let device := devices.getD i hcsr04_data_zero
    let device := { device with in_use := true }
    (0, devices.set i device, some i)

/-- Function `hcsr04_release`: the table is not modified and `filep->private_data` becomes
`NULL`. -/
def hcsr04_release (devices : List hcsr04_data) (i_rdev : Nat) :
    Int × List hcsr04_data × Option Nat :=
  match hcsr04_get_by_devt devices i_rdev with
  | none => (ENODEV, devices, none)
  | some _ => (0, devices, none)

/-- One driver-level operation on the device table. -/
inductive TableOp where
  | probe (pdev : Nat) (env : ProbeEnv)
  | remove (pdev : Nat)
  | open_node (i_rdev : Nat)
  | release_node (i_rdev : Nat)
deriving DecidableEq, Repr

/-- Runs one operation; `none` when the operation dereferences `NULL`. -/
def TableOp.run (DRIVER_MAJOR : Nat) (devices : List hcsr04_data) :
    TableOp → Option (Int × List hcsr04_data)
  | .probe pdev env => some (hcsr04_probe DRIVER_MAJOR devices pdev env)
  | .remove pdev => hcsr04_remove devices pdev
  | .open_node i_rdev =>
    let r := hcsr04_open devices i_rdev
    some (r.1, r.2.1)
  | .release_node i_rdev =>
    let r := hcsr04_release devices i_rdev
    some (r.1, r.2.1)

/-- Attaches the devices of `attaches` in order; returns the return values of the
`hcsr04_probe` calls and the final table. -/
def probe_all (DRIVER_MAJOR : Nat) :
    List hcsr04_data → List (Nat × ProbeEnv) → List Int × List hcsr04_data
  | devices, [] => ([], devices)
  | devices, a :: rest =>
    let r := hcsr04_probe DRIVER_MAJOR devices a.1 a.2
    let rs := probe_all DRIVER_MAJOR r.2 rest
    (r.1 :: rs.1, rs.2)

/-! ## Vocabulary of the statements -/

/-- The slot as `hcsr04_read` has armed it when it starts the wait: mutex held, irq
number stored, completion re-initialised and both timestamps set to `-1`. -/
def armed (env : ReadEnv) (device : hcsr04_data) : hcsr04_data :=
  { device with lock := true, irq_number := (env.gpiod_to_irq % 2 ^ 32).toNat,
                completion := 0, measurement_start := -1, measurement_end := -1 }

/-- The operations `hcsr04_read` has issued when its wait starts. -/
def ops_to_wait (irq : Nat) : List Op :=
  [Op.request_irq irq, Op.reinit_completion, Op.gpiod_direction_output 1,
   Op.usleep_range 10 20, Op.gpiod_direction_output 0,
   Op.wait_for_completion_killable_timeout 100]

/-- The final `mutex_unlock` applied to the exit state of the block. -/
def unlocked (exit : ReadExit) : ReadExit :=
  { exit with device := { exit.device with lock := false },
              ops := [Op.mutex_lock] ++ exit.ops ++ [Op.mutex_unlock] }

/-- A read on the zero slot whose kernel calls all succeed and whose wait returns
`outcome`. -/
def env_with_outcome (outcome : WaitOutcome) : ReadEnv :=
  { gpiod_to_irq := 17, request_irq := 0, trigger_high := 0, trigger_low := 0,
    wait := fun _ _ => outcome }

/-- The pairs `(index, byte)` of the writes to the caller's buffer among `ops`. -/
def buffer_writes : List Op → List (Nat × Nat)
  | [] => []
  | Op.write_user_buffer i b :: rest => (i, b) :: buffer_writes rest
  | _ :: rest => buffer_writes rest

/-- Contract of `request_irq` and `gpiod_direction_output`: they return 0 on success and
a negative errno on failure. -/
def ReadEnv.kernel_contract (env : ReadEnv) : Prop :=
  env.request_irq ≤ 0 ∧ env.trigger_high ≤ 0 ∧ env.trigger_low ≤ 0

/-- A read on slot 0 with irq 17 granted, in which `gpiod_direction_output` returns
`trigger_high` and then `trigger_low`, and the wait returns `outcome`. -/
def env_with_trigger (trigger_high trigger_low : Int) (outcome : WaitOutcome) : ReadEnv :=
  { gpiod_to_irq := 17, request_irq := 0, trigger_high := trigger_high,
    trigger_low := trigger_low, wait := fun _ _ => outcome }

/-- The deadlines, in milliseconds, of the waits among `ops`. -/
def wait_deadlines : List Op → List Nat
  | [] => []
  | Op.wait_for_completion_killable_timeout ms :: rest => ms :: wait_deadlines rest
  | _ :: rest => wait_deadlines rest

/-- The platform device has its three properties and the kernel creates the node and
hands out both pins. -/
def ProbeEnv.succeeds (env : ProbeEnv) : Prop :=
  env.label ≠ none ∧ env.echo_gpio_present = true ∧ env.trigger_gpio_present = true ∧
  env.device_create ≠ KPtr.null ∧ IS_ERR env.gpiod_get_echo = false ∧
  IS_ERR env.gpiod_get_trigger = false

/-- A platform device with all properties, for which node creation and both
`gpiod_get` calls succeed. -/
def env_attach_ok : ProbeEnv :=
  { label := some "sensor", echo_gpio_present := true, trigger_gpio_present := true,
    device_create := KPtr.valid 1, gpiod_get_echo := KPtr.valid 2,
    gpiod_get_trigger := KPtr.valid 3 }

/-- A platform device with all properties, for which `gpiod_get` of the echo pin returns
`ERR_PTR(-ENOENT)`. -/
def env_echo_fails : ProbeEnv :=
  { label := some "sensor", echo_gpio_present := true, trigger_gpio_present := true,
    device_create := KPtr.valid 1, gpiod_get_echo := KPtr.err 2,
    gpiod_get_trigger := KPtr.valid 3 }

/-- Ten platform devices `100 .. 109`, each attaching successfully. -/
def ten_attaches : List (Nat × ProbeEnv) :=
  (List.range MAX_DEVICES_COUNT).map (fun i => (100 + i, env_attach_ok))

/-! ## Theorems -/

/-- The accepted distances are those strictly between 5 and 5000. -/
theorem measurement_check_iff (d : Int) :
    hcsr04_measurement_check d = true ↔ 5 < d ∧ d < 5000 := by
  unfold hcsr04_measurement_check
  simp only []
  constructor
  · intro h
    split at h
    · omega
    · exact absurd h (by simp)
  · intro h
    rw [if_pos]
    omega

/-- Narrowing to 32 bits does not depend on the 64-bit wrap of the difference. -/
theorem wrap_s32_wrap_s64 (x : Int) : wrap_s32 (wrap_s64 x) = wrap_s32 x := by
  unfold wrap_s32 wrap_s64
  omega

/-- A value in the range of a 32-bit `int` is kept by the narrowing. -/
theorem wrap_s32_of_fits (x : Int) (h1 : -2 ^ 31 ≤ x) (h2 : x < 2 ^ 31) : wrap_s32 x = x := by
  unfold wrap_s32
  omega

/-- When `request_irq` and both trigger writes return 0, `hcsr04_read` with `count = 2`
and a buffer starts its wait on the armed slot and resolves its outcome. -/
theorem read_reaches_wait (T : Nat) (env : ReadEnv) (device : hcsr04_data)
    (buffer : List Nat)
    (h_irq : env.request_irq = 0) (h_hi : env.trigger_high = 0) (h_lo : env.trigger_low = 0) :
    hcsr04_read T env (some device) (some buffer) 2 =
      some (unlocked (hcsr04_read_resolve (armed env device) buffer 2
        (ops_to_wait (armed env device).irq_number) (env.wait 100 (armed env device)))) := by
  simp [hcsr04_read, hcsr04_read_block, h_irq, h_hi, h_lo, armed, unlocked, ops_to_wait]

/-- A completed wait with a rejected distance resolves to `ENOMSG`, buffer unchanged. -/
theorem resolve_rejected (device : hcsr04_data) (buffer : List Nat) (count : Nat)
    (ops : List Op) (outcome : WaitOutcome) (h_wait : 0 < outcome.result)
    (h_chk : hcsr04_measurement_check
      (hcsr04_distance_mm outcome.measurement_start outcome.measurement_end) = false) :
    (hcsr04_read_resolve device buffer count ops outcome).result = ENOMSG ∧
    (hcsr04_read_resolve device buffer count ops outcome).user_buffer = some buffer ∧
    (hcsr04_read_resolve device buffer count ops outcome).ops =
      ops ++ [Op.free_irq device.irq_number] := by
  unfold hcsr04_read_resolve
  simp only [Int.not_le.mpr h_wait, if_false, h_chk]
  split <;> simp

/-- A read whose wait completed with a rejected distance returns `ENOMSG`. -/
theorem read_rejected (T : Nat) (env : ReadEnv) (device : hcsr04_data) (buffer : List Nat)
    (h_irq : env.request_irq = 0) (h_hi : env.trigger_high = 0) (h_lo : env.trigger_low = 0)
    (h_wait : 0 < (env.wait 100 (armed env device)).result)
    (h_chk : hcsr04_measurement_check
      (hcsr04_distance_mm (env.wait 100 (armed env device)).measurement_start
        (env.wait 100 (armed env device)).measurement_end) = false) :
    ∃ exit, hcsr04_read T env (some device) (some buffer) 2 = some exit ∧
      exit.result = ENOMSG ∧ exit.user_buffer = some buffer ∧
      buffer_writes exit.ops = [] := by
  refine ⟨_, read_reaches_wait T env device buffer h_irq h_hi h_lo, ?_⟩
  obtain ⟨h1, h2, h3⟩ := resolve_rejected (armed env device) buffer 2
    (ops_to_wait (armed env device).irq_number) _ h_wait h_chk
  refine ⟨h1, h2, ?_⟩
  simp only [unlocked]
  rw [h3]
  simp [ops_to_wait, buffer_writes]

/-- C1: `hcsr04_measurement_check` accepts a distance exactly when it lies strictly
between 5 and 5000; every distance at most 5 or at least 5000 is rejected, 6 and 4999
are accepted, and a read whose wait completed with a rejected distance returns `ENOMSG`
and leaves the caller's buffer untouched. -/
theorem C1_measurement_check_envelope :
    (∀ distance_mm : Int,
      (hcsr04_measurement_check distance_mm = true ↔ 5 < distance_mm ∧ distance_mm < 5000) ∧
      (distance_mm ≤ 5 ∨ 5000 ≤ distance_mm → hcsr04_measurement_check distance_mm = false)) ∧
    hcsr04_measurement_check 6 = true ∧ hcsr04_measurement_check 4999 = true ∧
    (∀ (T : Nat) (env : ReadEnv) (device : hcsr04_data) (buffer : List Nat),
      env.request_irq = 0 → env.trigger_high = 0 → env.trigger_low = 0 →
      0 < (env.wait 100 (armed env device)).result →
      hcsr04_measurement_check
        (hcsr04_distance_mm (env.wait 100 (armed env device)).measurement_start
          (env.wait 100 (armed env device)).measurement_end) = false →
      ∃ exit, hcsr04_read T env (some device) (some buffer) 2 = some exit ∧
        exit.result = ENOMSG ∧ exit.user_buffer = some buffer ∧
        buffer_writes exit.ops = []) := by
  refine ⟨fun d => ⟨measurement_check_iff d, fun h => ?_⟩, ?_, ?_, ?_⟩
  · cases hc : hcsr04_measurement_check d
    · rfl
    · have := (measurement_check_iff d).mp hc
      omega
  · exact (measurement_check_iff 6).mpr (by omega)
  · exact (measurement_check_iff 4999).mpr (by omega)
  · intro T env device buffer h1 h2 h3 h4 h5
    exact read_rejected T env device buffer h1 h2 h3 h4 h5

/-- The computed distance as a function of the 32-bit elapsed value. -/
theorem distance_eq_wrap (measurement_start measurement_end : Int) :
    hcsr04_distance_mm measurement_start measurement_end =
      Int.tdiv (Int.tdiv (wrap_s32 (measurement_end - measurement_start)) 1000) 53 := by
  unfold hcsr04_distance_mm
  rw [wrap_s32_wrap_s64]

/-- C2 (counterexample): with `measurement_start = 0` and
`measurement_end = 2^32 + 6360000` the read computes the distance 120, accepts it and
writes `[0x00, 0x78]`, whereas `((end - start) / 1000) / 53` on the full 64-bit elapsed
value is 81157. -/
theorem C2_counterexample_full_width_elapsed :
    hcsr04_distance_mm 0 4301327296 = 120 ∧
    Int.tdiv (Int.tdiv (4301327296 - 0) 1000) 53 = 81157 ∧
    hcsr04_distance_mm 0 4301327296 ≠ Int.tdiv (Int.tdiv (4301327296 - 0) 1000) 53 ∧
    (hcsr04_read 100 (env_with_outcome ⟨1, 0, 0, 4301327296⟩) (some hcsr04_data_zero)
      (some [0, 0]) 2).map (fun exit => (exit.result, exit.user_buffer)) =
        some (2, some [0x00, 0x78]) := by
  refine ⟨by decide, by decide, by decide, by decide⟩

/-- C2 (amended): for every pair of timestamps the distance `hcsr04_read` computes is
`(t / 1000) / 53`, with C integer division, where `t` is the elapsed value
`measurement_end - measurement_start` converted to a 32-bit `int`: the one value in
`[-2^31, 2^31)` that differs from the elapsed value by a multiple of `2^32`. Whenever
the elapsed value itself lies in `[-2^31, 2^31)` the distance is
`((measurement_end - measurement_start) / 1000) / 53`. An elapsed value of
`2^32 + 6,360,000` ns gives 120, as 6,360,000 ns does, and a completed read with
start 0 ns and end 6,360,000 ns computes 120 and writes the bytes `[0x00, 0x78]`. -/
theorem C2_distance_of_elapsed (measurement_start measurement_end : Int) :
    hcsr04_distance_mm measurement_start measurement_end =
      Int.tdiv (Int.tdiv (wrap_s32 (measurement_end - measurement_start)) 1000) 53 ∧
    (-2 ^ 31 ≤ wrap_s32 (measurement_end - measurement_start) ∧
      wrap_s32 (measurement_end - measurement_start) < 2 ^ 31 ∧
      (wrap_s32 (measurement_end - measurement_start) -
        (measurement_end - measurement_start)) % 2 ^ 32 = 0) ∧
    (-2 ^ 31 ≤ measurement_end - measurement_start →
      measurement_end - measurement_start < 2 ^ 31 →
      hcsr04_distance_mm measurement_start measurement_end =
        Int.tdiv (Int.tdiv (measurement_end - measurement_start) 1000) 53) ∧
    hcsr04_distance_mm 0 (2 ^ 32 + 6360000) = 120 ∧
    hcsr04_distance_mm 0 6360000 = 120 ∧
    (hcsr04_read 100 (env_with_outcome ⟨1, 0, 0, 6360000⟩) (some hcsr04_data_zero)
      (some [0, 0]) 2).map (fun exit => (exit.result, exit.user_buffer)) =
        some (2, some [0x00, 0x78]) := by
  refine ⟨distance_eq_wrap _ _, ?_, ?_, by decide, by decide, by decide⟩
  · unfold wrap_s32
    refine ⟨by omega, by omega, by omega⟩
  · intro h_lo h_hi
    rw [distance_eq_wrap, wrap_s32_of_fits _ h_lo h_hi]

/-- C2 (witness): start 1000 ns, end 6,361,000 ns; the elapsed value 6,360,000 fits a
32-bit `int` and the distance is `(6360000 / 1000) / 53`. -/
theorem C2_distance_of_elapsed_witness :
    (-2 ^ 31 ≤ (6361000 : Int) - 1000 ∧ (6361000 : Int) - 1000 < 2 ^ 31) ∧
    hcsr04_distance_mm 1000 6361000 =
      Int.tdiv (Int.tdiv (6361000 - 1000) 1000) 53 :=
  ⟨⟨by decide, by decide⟩,
    (C2_distance_of_elapsed 1000 6361000).2.2.1 (by decide) (by decide)⟩

/-- On a non-negative value `& 0xFF` is the remainder modulo 256. -/
theorem land_255_of_nonneg (d : Int) (h : 0 ≤ d) : Int.land d 0xFF = d % 256 := by
  obtain ⟨n, rfl⟩ := Int.eq_ofNat_of_zero_le h
  show ((n &&& 255 : Nat) : Int) = _
  rw [show (255 : Nat) = 2 ^ 8 - 1 by norm_num, Nat.and_pow_two_sub_one_eq_mod]
  norm_num

/-- The low byte of a non-negative distance. -/
theorem byte1_eq (d : Int) (h : 0 ≤ d) : (to_char (Int.land d 0xFF) : Int) = d % 256 := by
  unfold to_char
  rw [land_255_of_nonneg d h]
  omega

/-- The high byte of a distance below 65536. -/
theorem byte0_eq (d : Int) (h0 : 0 ≤ d) (h1 : d < 65536) :
    (to_char (Int.land (Int.shiftRight d 8) 0xFF) : Int) = d / 256 := by
  have hs : Int.shiftRight d 8 = d / 256 := by
    show d >>> (8 : Nat) = d / 256
    rw [Int.shiftRight_eq_div_pow]
    norm_num
  have hq : 0 ≤ d / 256 := by omega
  unfold to_char
  rw [hs, land_255_of_nonneg _ hq]
  omega

/-- A completed wait with both timestamps different from 1 and an accepted distance
resolves to `count` with the two bytes written. -/
theorem resolve_accepted (device : hcsr04_data) (buffer : List Nat) (count : Nat)
    (ops : List Op) (outcome : WaitOutcome) (h_wait : 0 < outcome.result)
    (h_start : outcome.measurement_start ≠ 1) (h_end : outcome.measurement_end ≠ 1)
    (h_chk : hcsr04_measurement_check
      (hcsr04_distance_mm outcome.measurement_start outcome.measurement_end) = true) :
    (hcsr04_read_resolve device buffer count ops outcome).result = count ∧
    (hcsr04_read_resolve device buffer count ops outcome).user_buffer =
      some ((buffer.set 0
        (to_char (Int.land (Int.shiftRight
          (hcsr04_distance_mm outcome.measurement_start outcome.measurement_end) 8) 0xFF))).set 1
        (to_char (Int.land
          (hcsr04_distance_mm outcome.measurement_start outcome.measurement_end) 0xFF))) ∧
    (hcsr04_read_resolve device buffer count ops outcome).ops =
      ops ++ [Op.free_irq device.irq_number] ++
        [Op.write_user_buffer 0 (to_char (Int.land (Int.shiftRight
          (hcsr04_distance_mm outcome.measurement_start outcome.measurement_end) 8) 0xFF)),
         Op.write_user_buffer 1 (to_char (Int.land
          (hcsr04_distance_mm outcome.measurement_start outcome.measurement_end) 0xFF))] := by
  unfold hcsr04_read_resolve
  simp [Int.not_le.mpr h_wait, h_chk, h_start, h_end]

/-- C3: for every distance `d` in `[21, 4985]`, and for every `d` that
`hcsr04_measurement_check` accepts, the bytes `b0 = (d >> 8) & 0xFF` and
`b1 = d & 0xFF` are unsigned byte values with `256 * b0 + b1 = d`, and they are the two
bytes a completed read that computed `d` writes at positions 0 and 1 of the buffer. -/
theorem C3_big_endian_round_trip (d : Int)
    (h : (21 ≤ d ∧ d ≤ 4985) ∨ hcsr04_measurement_check d = true) :
    to_char (Int.land (Int.shiftRight d 8) 0xFF) < 256 ∧ to_char (Int.land d 0xFF) < 256 ∧
    256 * (to_char (Int.land (Int.shiftRight d 8) 0xFF) : Int) + (to_char (Int.land d 0xFF) : Int) = d ∧
    (∀ (T : Nat) (env : ReadEnv) (device : hcsr04_data) (buffer : List Nat),
      env.request_irq = 0 → env.trigger_high = 0 → env.trigger_low = 0 →
      0 < (env.wait 100 (armed env device)).result →
      (env.wait 100 (armed env device)).measurement_start ≠ 1 →
      (env.wait 100 (armed env device)).measurement_end ≠ 1 →
      hcsr04_distance_mm (env.wait 100 (armed env device)).measurement_start
        (env.wait 100 (armed env device)).measurement_end = d →
      ∃ exit, hcsr04_read T env (some device) (some buffer) 2 = some exit ∧
        exit.result = 2 ∧
        exit.user_buffer = some ((buffer.set 0 (to_char (Int.land (Int.shiftRight d 8) 0xFF))).set 1
          (to_char (Int.land d 0xFF)))) := by
  have hacc : hcsr04_measurement_check d = true := by
    rcases h with h | h
    · exact (measurement_check_iff d).mpr (by omega)
    · exact h
  have hr := (measurement_check_iff d).mp hacc
  have h0 := byte0_eq d (by omega) (by omega)
  have h1 := byte1_eq d (by omega)
  refine ⟨by omega, by omega, by omega, ?_⟩
  intro T env device buffer h_irq h_hi h_lo h_wait h_start h_end h_dist
  refine ⟨_, read_reaches_wait T env device buffer h_irq h_hi h_lo, ?_⟩
  obtain ⟨r1, r2, -⟩ := resolve_accepted (armed env device) buffer 2
    (ops_to_wait (armed env device).irq_number) _ h_wait h_start h_end (by rw [h_dist]; exact hacc)
  rw [h_dist] at r2
  exact ⟨r1, r2⟩

/-- C3 (witness): the distance 4985 is encoded as `0x13, 0x79`. -/
theorem C3_big_endian_round_trip_witness :
    256 * (to_char (Int.land (Int.shiftRight 4985 8) 0xFF) : Int) +
      (to_char (Int.land (4985 : Int) 0xFF) : Int) = 4985 :=
  (C3_big_endian_round_trip 4985 (Or.inl (by decide))).2.2.1

/-- Whenever `request_irq` succeeded and a trigger write fails, `hcsr04_read` returns the
error of that write with the mutex released, the buffer untouched, the interrupt still
requested and no `free_irq` issued. -/
theorem read_trigger_failure (T : Nat) (env : ReadEnv) (device : hcsr04_data)
    (buffer : List Nat) (h_irq : env.request_irq = 0)
    (h_fail : env.trigger_high ≠ 0 ∨ env.trigger_low ≠ 0) :
    ∃ exit, hcsr04_read T env (some device) (some buffer) 2 = some exit ∧
      exit.result = (if env.trigger_high ≠ 0 then env.trigger_high else env.trigger_low) ∧
      exit.irq_requested = true ∧ exit.device.lock = false ∧
      exit.user_buffer = some buffer ∧
      (∀ irq, Op.free_irq irq ∉ exit.ops) := by
  refine ⟨_, rfl, ?_⟩
  by_cases h_hi : env.trigger_high = 0
  · have h_lo : env.trigger_low ≠ 0 := by
      rcases h_fail with h | h
      · exact absurd h_hi h
      · exact h
    simp [hcsr04_read_block, h_irq, h_hi, h_lo]
  · simp [hcsr04_read_block, h_irq, h_hi]

/-- Whenever the wait returns success with `measurement_start` still `-1`, a
`measurement_end` different from 1 and an accepted value of
`((measurement_end + 1) / 1000) / 53`, `hcsr04_read` returns 2 and writes two bytes. -/
theorem read_unset_start (T : Nat) (env : ReadEnv) (device : hcsr04_data)
    (buffer : List Nat)
    (h_irq : env.request_irq = 0) (h_hi : env.trigger_high = 0) (h_lo : env.trigger_low = 0)
    (h_wait : 0 < (env.wait 100 (armed env device)).result)
    (h_start : (env.wait 100 (armed env device)).measurement_start = -1)
    (h_end : (env.wait 100 (armed env device)).measurement_end ≠ 1)
    (h_chk : hcsr04_measurement_check
      (hcsr04_distance_mm (-1) (env.wait 100 (armed env device)).measurement_end) = true) :
    ∃ exit, hcsr04_read T env (some device) (some buffer) 2 = some exit ∧
      exit.result = 2 ∧ buffer_writes exit.ops ≠ [] := by
  refine ⟨_, read_reaches_wait T env device buffer h_irq h_hi h_lo, ?_⟩
  obtain ⟨r1, -, r3⟩ := resolve_accepted (armed env device) buffer 2
    (ops_to_wait (armed env device).irq_number) _ h_wait (by rw [h_start]; decide) h_end
    (by rw [h_start]; exact h_chk)
  refine ⟨r1, ?_⟩
  simp only [unlocked]
  rw [r3]
  simp [ops_to_wait, buffer_writes]

/-- C4 (failing inputs): when `request_irq` succeeded and the trigger write to high
fails with `-EIO`, or the write to low does, `hcsr04_read` returns `-5` with the mutex
released but without any `free_irq`: the interrupt is still requested. A wait that
times out, by contrast, frees it. -/
theorem C4_trigger_failure_keeps_irq :
    hcsr04_read 100 (env_with_trigger (-5) 0 ⟨0, 0, -1, -1⟩) (some hcsr04_data_zero)
        (some [0, 0]) 2 =
      some { result := -5,
             device := { hcsr04_data_zero with irq_number := 17, measurement_start := -1,
                                               measurement_end := -1, lock := false },
             user_buffer := some [0, 0],
             irq_requested := true,
             ops := [Op.mutex_lock, Op.request_irq 17, Op.reinit_completion,
                     Op.gpiod_direction_output 1, Op.mutex_unlock] } ∧
    hcsr04_read 100 (env_with_trigger 0 (-5) ⟨0, 0, -1, -1⟩) (some hcsr04_data_zero)
        (some [0, 0]) 2 =
      some { result := -5,
             device := { hcsr04_data_zero with irq_number := 17, measurement_start := -1,
                                               measurement_end := -1, lock := false },
             user_buffer := some [0, 0],
             irq_requested := true,
             ops := [Op.mutex_lock, Op.request_irq 17, Op.reinit_completion,
                     Op.gpiod_direction_output 1, Op.usleep_range 10 20,
                     Op.gpiod_direction_output 0, Op.mutex_unlock] } ∧
    (hcsr04_read 100 (env_with_trigger 0 0 ⟨0, 0, -1, -1⟩) (some hcsr04_data_zero)
        (some [0, 0]) 2).map (fun exit => (exit.result, exit.irq_requested, exit.device.lock)) =
      some (0, false, false) := by
  refine ⟨by decide, by decide, by decide⟩

/-- Every exit taken after the wait has freed the interrupt, and either wrote the two
bytes and returns `count`, or wrote nothing and returns a value `<= 0` or `ENOMSG`. -/
theorem resolve_cases (device : hcsr04_data) (buffer : List Nat) (count : Nat)
    (ops : List Op) (outcome : WaitOutcome) :
    let exit := hcsr04_read_resolve device buffer count ops outcome
    let d := hcsr04_distance_mm exit.device.measurement_start exit.device.measurement_end
    exit.irq_requested = false ∧
    ((exit.result = count ∧
      exit.user_buffer = some ((buffer.set 0
        (to_char (Int.land (Int.shiftRight d 8) 0xFF))).set 1 (to_char (Int.land d 0xFF))) ∧
      exit.ops = ops ++ [Op.free_irq device.irq_number] ++
        [Op.write_user_buffer 0 (to_char (Int.land (Int.shiftRight d 8) 0xFF)),
         Op.write_user_buffer 1 (to_char (Int.land d 0xFF))]) ∨
     ((exit.result ≤ 0 ∨ exit.result = ENOMSG) ∧ exit.user_buffer = some buffer ∧
      exit.ops = ops ++ [Op.free_irq device.irq_number])) := by
  intro exit d
  simp only [exit, d]
  unfold hcsr04_read_resolve
  simp only []
  split
  · simp_all
  · split
    · simp
    · split <;> simp

/-- C5: for every requested count, every buffer, every outcome of the kernel calls
(which return 0 or a negative errno) and every pair of captured timestamps,
`hcsr04_read` on a valid device either returns 2 having written exactly the two bytes
of the computed distance at positions 0 and 1 of the buffer, or returns a value
different from 2 having written nothing. With `count != 2` it returns `EINVAL` and has
issued no operation besides taking and releasing the mutex. -/
theorem C5_two_bytes_or_nothing (T : Nat) (env : ReadEnv) (device : hcsr04_data)
    (user_buffer : Option (List Nat)) (count : Nat) (h_contract : env.kernel_contract) :
    ∃ exit, hcsr04_read T env (some device) user_buffer count = some exit ∧
      ((exit.result = 2 ∧
        ∃ buffer byte0 byte1, user_buffer = some buffer ∧
          byte0 = to_char (Int.land (Int.shiftRight
            (hcsr04_distance_mm exit.device.measurement_start exit.device.measurement_end) 8)
            0xFF) ∧
          byte1 = to_char (Int.land
            (hcsr04_distance_mm exit.device.measurement_start exit.device.measurement_end)
            0xFF) ∧
          exit.user_buffer = some ((buffer.set 0 byte0).set 1 byte1) ∧
          buffer_writes exit.ops = [(0, byte0), (1, byte1)]) ∨
       (exit.result ≠ 2 ∧ exit.user_buffer = user_buffer ∧ buffer_writes exit.ops = [])) ∧
      (count ≠ 2 →
        exit.result = EINVAL ∧ exit.user_buffer = user_buffer ∧
        exit.device = { device with lock := false } ∧ exit.irq_requested = false ∧
        exit.ops = [Op.mutex_lock, Op.mutex_unlock]) := by
  obtain ⟨c_irq, c_hi, c_lo⟩ := h_contract
  by_cases h_count : count = 2
  swap
  · refine ⟨_, rfl, Or.inr ?_, fun _ => ?_⟩ <;>
      simp [hcsr04_read_block, h_count, EINVAL, buffer_writes]
  subst h_count
  cases user_buffer with
  | none =>
    refine ⟨_, rfl, Or.inr ?_, fun h => absurd rfl h⟩
    simp [hcsr04_read_block, EINVAL, buffer_writes]
  | some buffer =>
    by_cases h_irq : env.request_irq = 0
    swap
    · refine ⟨_, rfl, Or.inr ?_, fun h => absurd rfl h⟩
      simp only [hcsr04_read_block]
      simp [h_irq, buffer_writes]
      omega
    by_cases h_hi : env.trigger_high = 0
    swap
    · refine ⟨_, rfl, Or.inr ?_, fun h => absurd rfl h⟩
      simp only [hcsr04_read_block]
      simp [h_irq, h_hi, buffer_writes]
      omega
    by_cases h_lo : env.trigger_low = 0
    swap
    · refine ⟨_, rfl, Or.inr ?_, fun h => absurd rfl h⟩
      simp only [hcsr04_read_block]
      simp [h_irq, h_hi, h_lo, buffer_writes]
      omega
    refine ⟨_, read_reaches_wait T env device buffer h_irq h_hi h_lo, ?_,
      fun h => absurd rfl h⟩
    obtain ⟨-, hc⟩ := resolve_cases (armed env device) buffer 2
      (ops_to_wait (armed env device).irq_number) (env.wait 100 (armed env device))
    rcases hc with ⟨r1, r2, r3⟩ | ⟨r1, r2, r3⟩
    · refine Or.inl ⟨by simpa [unlocked] using r1, buffer, _, _, rfl, rfl, rfl, ?_, ?_⟩
      · simpa [unlocked] using r2
      · simp only [unlocked]
        rw [r3]
        simp [ops_to_wait, buffer_writes]
    · refine Or.inr ⟨?_, by simpa [unlocked] using r2, ?_⟩
      · simp only [unlocked]
        rcases r1 with r1 | r1
        · omega
        · rw [r1]
          decide
      · simp only [unlocked]
        rw [r3]
        simp [ops_to_wait, buffer_writes]

/-- C5 (witness): a read of 3 bytes on the zero slot returns `EINVAL`. -/
theorem C5_two_bytes_or_nothing_witness :
    ∃ exit, hcsr04_read 100 (env_with_trigger 0 0 ⟨1, 0, 0, 6360000⟩)
        (some hcsr04_data_zero) (some [7, 7, 7]) 3 = some exit ∧
      exit.result = EINVAL ∧ exit.user_buffer = some [7, 7, 7] := by
  obtain ⟨exit, h1, -, h3⟩ := C5_two_bytes_or_nothing 100
    (env_with_trigger 0 0 ⟨1, 0, 0, 6360000⟩) hcsr04_data_zero (some [7, 7, 7]) 3
    (by unfold ReadEnv.kernel_contract env_with_trigger; decide)
  exact ⟨exit, h1, (h3 (by decide)).1, (h3 (by decide)).2.1⟩

/-- C6 (failing input): with the module parameter `DEVICE_READ_TIMEOUT_MS` set to 250,
the wait of `hcsr04_read` is started with a deadline of 100 ms; the whole outcome of a
read is the same for every value of the parameter. -/
theorem C6_wait_deadline_ignores_parameter :
    (hcsr04_read 250 (env_with_trigger 0 0 ⟨0, 0, -1, -1⟩) (some hcsr04_data_zero)
        (some [0, 0]) 2).map (fun exit => wait_deadlines exit.ops) = some [100] ∧
    (∀ (DEVICE_READ_TIMEOUT_MS : Nat) (env : ReadEnv) (private_data : Option hcsr04_data)
        (user_buffer : Option (List Nat)) (count : Nat),
      hcsr04_read DEVICE_READ_TIMEOUT_MS env private_data user_buffer count =
        hcsr04_read 100 env private_data user_buffer count) := by
  refine ⟨by decide, fun _ _ _ _ _ => rfl⟩

/-- C7 (failing input): the wait returns success while `measurement_start` still holds
the sentinel `-1` and `measurement_end` is 6,359,999; `hcsr04_read` computes the
distance 120 from the unset timestamp, writes `[0x00, 0x78]` and returns 2. The test
that is made compares with `1`: a start timestamp equal to 1 gives `ENOMSG`. -/
theorem C7_unset_start_yields_distance :
    (hcsr04_read 100 (env_with_outcome ⟨1, 0, -1, 6359999⟩) (some hcsr04_data_zero)
      (some [0, 0]) 2).map
        (fun exit => (exit.result, exit.user_buffer, exit.device.measurement_start)) =
      some (2, some [0x00, 0x78], -1) ∧
    (hcsr04_read 100 (env_with_outcome ⟨1, 0, 1, 6360001⟩) (some hcsr04_data_zero)
      (some [0, 0]) 2).map (fun exit => (exit.result, exit.user_buffer)) =
      some (ENOMSG, some [0, 0]) := by
  refine ⟨by decide, by decide⟩

/-- A falling edge seen while `measurement_start` is `-1` changes nothing. -/
theorem handler_falling_unset (device : hcsr04_data) (now : Int)
    (h : device.measurement_start = -1) :
    hcsr04_interrupt_handler device 0 now = device := by
  simp [hcsr04_interrupt_handler, h]

/-- Falling edges only, from a slot whose `measurement_start` is `-1`, change nothing. -/
theorem irq_window_falling_unset (edges : List (Int × Int)) (device : hcsr04_data)
    (h : device.measurement_start = -1) (h_falling : ∀ e ∈ edges, e.1 = 0) :
    irq_window edges device = device := by
  induction edges with
  | nil => rfl
  | cons e rest ih =>
    have he : e.1 = 0 := h_falling e (List.mem_cons_self _ _)
    have hstep : hcsr04_interrupt_handler device e.1 e.2 = device := by
      rw [he]
      exact handler_falling_unset device e.2 h
    unfold irq_window at ih ⊢
    rw [List.foldl_cons, hstep]
    exact ih (fun x hx => h_falling x (List.mem_cons_of_mem _ hx))

/-- A rising edge at 1000 ns followed by a falling edge at 6,361,000 ns completes the
wait: the read returns 2 and writes `[0x00, 0x78]`. -/
theorem echo_pulse_example :
    (hcsr04_read 100
        { gpiod_to_irq := 17, request_irq := 0, trigger_high := 0, trigger_low := 0,
          wait := EchoLine.wait ⟨[(1, 1000), (0, 6361000)], false, 5⟩ }
        (some hcsr04_data_zero) (some [9, 9]) 2).map
      (fun exit => (exit.result, exit.user_buffer, exit.irq_requested)) =
      some (2, some [0x00, 0x78], false) := by
  decide

/-- C8: in every slot whose `measurement_start` is `-1`, the handler run with the echo
line low returns the slot unchanged (no completion, both timestamps kept). Hence a read
that reaches its wait while the handler sees only falling edges finds the completion
not done: it leaves through the timeout exit with the wait's return value (0, or
`-ERESTARTSYS` when killed), the interrupt freed, the mutex released and the caller's
buffer untouched. -/
theorem C8_falling_edge_without_start (device : hcsr04_data) (now : Int)
    (h_unset : device.measurement_start = -1)
    (T : Nat) (env : ReadEnv) (line : EchoLine) (slot : hcsr04_data) (buffer : List Nat)
    (h_irq : env.request_irq = 0) (h_hi : env.trigger_high = 0) (h_lo : env.trigger_low = 0)
    (h_line : env.wait = line.wait) (h_falling : ∀ e ∈ line.edges, e.1 = 0) :
    hcsr04_interrupt_handler device 0 now = device ∧
    irq_window line.edges (armed env slot) = armed env slot ∧
    ∃ exit, hcsr04_read T env (some slot) (some buffer) 2 = some exit ∧
      exit.result = (if line.fatal_signal then -ERESTARTSYS else 0) ∧
      exit.result ≤ 0 ∧
      exit.user_buffer = some buffer ∧
      buffer_writes exit.ops = [] ∧
      exit.device.completion = 0 ∧
      exit.device.measurement_start = -1 ∧ exit.device.measurement_end = -1 ∧
      exit.irq_requested = false ∧ exit.device.lock = false := by
  have hwin : irq_window line.edges (armed env slot) = armed env slot :=
    irq_window_falling_unset _ _ rfl h_falling
  refine ⟨handler_falling_unset device now h_unset, hwin, _,
    read_reaches_wait T env slot buffer h_irq h_hi h_lo, ?_⟩
  have hout : env.wait 100 (armed env slot) =
      { result := if line.fatal_signal then -ERESTARTSYS else 0, completion := 0,
        measurement_start := -1, measurement_end := -1 } := by
    rw [h_line]
    unfold EchoLine.wait
    simp only [hwin]
    cases line.fatal_signal <;>
      simp [wait_for_completion_killable_timeout, armed]
  rw [hout]
  cases line.fatal_signal <;>
    simp [hcsr04_read_resolve, unlocked, ops_to_wait, buffer_writes, ERESTARTSYS]

/-- C8 (witness): two falling edges after arming, no fatal signal: the read returns 0. -/
theorem C8_falling_edge_without_start_witness :
    ∃ exit, hcsr04_read 100
        { gpiod_to_irq := 17, request_irq := 0, trigger_high := 0, trigger_low := 0,
          wait := EchoLine.wait ⟨[(0, 1000), (0, 2000)], false, 5⟩ }
        (some hcsr04_data_zero) (some [9, 9]) 2 = some exit ∧
      exit.result = 0 ∧ exit.user_buffer = some [9, 9] := by
  obtain ⟨-, -, exit, h1, h2, -, h3, -⟩ := C8_falling_edge_without_start
    { hcsr04_data_zero with measurement_start := -1 } 1000 rfl 100
    { gpiod_to_irq := 17, request_irq := 0, trigger_high := 0, trigger_low := 0,
      wait := EchoLine.wait ⟨[(0, 1000), (0, 2000)], false, 5⟩ }
    ⟨[(0, 1000), (0, 2000)], false, 5⟩ hcsr04_data_zero [9, 9] rfl rfl rfl rfl
    (by decide)
  exact ⟨exit, h1, h2, h3⟩

/-! ## Device table: lookups -/

/-- The lookup loop finds nothing when no slot satisfies the test. -/
theorem find_slot_none_of_forall (p : hcsr04_data → Bool) (l : List hcsr04_data) (s : Nat)
    (h : ∀ d ∈ l, p d = false) : find_slot p l s = none := by
  induction l generalizing s with
  | nil => rfl
  | cons d ds ih =>
    have hd : p d = false := h d (List.mem_cons_self _ _)
    simp only [find_slot, hd]
    exact ih (s + 1) (fun x hx => h x (List.mem_cons_of_mem _ hx))

/-- The lookup loop returns the first slot that satisfies the test, when it lies within
the first `n` slots. -/
theorem find_slot_take_bound (p : hcsr04_data → Bool) (bound rest : List hcsr04_data)
    (z : hcsr04_data) (n s : Nat) (h : ∀ d ∈ bound, p d = false) (hz : p z = true)
    (hn : bound.length < n) :
    find_slot p ((bound ++ z :: rest).take n) s = some (s + bound.length) := by
  induction bound generalizing n s with
  | nil =>
    obtain ⟨n', rfl⟩ : ∃ n', n = n' + 1 := ⟨n - 1, by simp at hn; omega⟩
    simp [find_slot, hz]
  | cons b bs ih =>
    obtain ⟨n', rfl⟩ : ∃ n', n = n' + 1 := ⟨n - 1, by simp at hn; omega⟩
    have hb : p b = false := h b (List.mem_cons_self _ _)
    have := ih n' (s + 1) (fun x hx => h x (List.mem_cons_of_mem _ hx))
      (by simp at hn; omega)
    have harith : s + 1 + bs.length = s + (bs.length + 1) := by omega
    simp [find_slot, hb, this, harith]

/-- After overwriting slot `i` of a table without match by a matching slot, the lookup
loop returns `i`. -/
theorem find_slot_set (p : hcsr04_data → Bool) (l : List hcsr04_data) (i s : Nat)
    (d : hcsr04_data) (h : ∀ x ∈ l, p x = false) (hd : p d = true) (hi : i < l.length) :
    find_slot p (l.set i d) s = some (s + i) := by
  induction l generalizing i s with
  | nil => simp at hi
  | cons b bs ih =>
    cases i with
    | zero => simp [find_slot, hd]
    | succ i =>
      have hb : p b = false := h b (List.mem_cons_self _ _)
      simp only [List.set_cons_succ, find_slot, hb]
      rw [ih i (s + 1) (fun x hx => h x (List.mem_cons_of_mem _ hx))
        (by simpa using hi)]
      have harith : s + 1 + i = s + (i + 1) := by omega
      simp [harith]

/-- The lookup loop returns a matching slot whenever one exists. -/
theorem find_slot_of_mem (p : hcsr04_data → Bool) (l : List hcsr04_data) (s : Nat)
    (h : ∃ d ∈ l, p d = true) :
    ∃ i, find_slot p l s = some (s + i) ∧ i < l.length ∧
      ∃ d, l[i]? = some d ∧ p d = true := by
  induction l generalizing s with
  | nil => simp at h
  | cons b bs ih =>
    by_cases hb : p b = true
    · exact ⟨0, by simp [find_slot, hb], by simp, b, by simp, hb⟩
    · have hb' : p b = false := by simpa using hb
      obtain ⟨d, hd, hpd⟩ := h
      have hmem : ∃ d ∈ bs, p d = true := by
        rcases List.mem_cons.mp hd with rfl | hd
        · exact absurd hpd hb
        · exact ⟨d, hd, hpd⟩
      obtain ⟨i, h1, h2, d', h3, h4⟩ := ih (s + 1) hmem
      refine ⟨i + 1, ?_, by simpa using h2, d', by simpa using h3, h4⟩
      have harith : s + 1 + i = s + (i + 1) := by omega
      simp [find_slot, hb', h1, harith]

/-- Overwriting the slot that follows `bound`. -/
theorem set_append_length (bound rest : List hcsr04_data) (z d : hcsr04_data) :
    (bound ++ z :: rest).set bound.length d = bound ++ d :: rest := by
  induction bound with
  | nil => rfl
  | cons b bs ih => simp [ih]

/-- No free slot is found in a table whose slots are all in use. -/
theorem get_not_used_none (t : List hcsr04_data) (h : ∀ d ∈ t, d.in_use = true) :
    hcsr04_get_not_used t = none := by
  unfold hcsr04_get_not_used
  apply find_slot_none_of_forall
  intro d hd
  simp [h d (List.mem_of_mem_take hd)]

/-- On a table whose slots are all in use `hcsr04_probe` returns `EBUSY` and changes
nothing. -/
theorem probe_full (DRIVER_MAJOR : Nat) (t : List hcsr04_data) (pdev : Nat) (env : ProbeEnv)
    (h : ∀ d ∈ t, d.in_use = true) : hcsr04_probe DRIVER_MAJOR t pdev env = (EBUSY, t) := by
  unfold hcsr04_probe
  rw [get_not_used_none t h]

/-- A probe that returns 0 has overwritten the free slot it found with a slot in use,
bound to the platform device. -/
theorem probe_of_slot (DRIVER_MAJOR : Nat) (t : List hcsr04_data) (pdev : Nat)
    (env : ProbeEnv) (i : Nat) (h : hcsr04_get_not_used t = some i)
    (hr : (hcsr04_probe DRIVER_MAJOR t pdev env).1 = 0) :
    ∃ d, (hcsr04_probe DRIVER_MAJOR t pdev env).2 = t.set i d ∧ d.in_use = true ∧
      d.device = some pdev := by
  unfold hcsr04_probe at hr ⊢
  rw [h] at hr ⊢
  cases hl : env.label with
  | none => simp [hl, ENOENT] at hr
  | some label =>
    simp only [hl] at hr ⊢
    by_cases he : env.echo_gpio_present = true
    swap
    · simp [he, ENOENT] at hr
    by_cases ht : env.trigger_gpio_present = true
    swap
    · simp [he, ht, ENOENT] at hr
    simp only [he, ht]
    refine ⟨_, rfl, rfl, ?_⟩
    simp only [hcsr04_probe_block]
    split
    · rfl
    · split
      · rfl
      · split <;> rfl

/-- The first free slot of a table that starts with `bound.length` slots in use. -/
theorem get_not_used_after_bound (bound rest : List hcsr04_data) (z : hcsr04_data)
    (h : ∀ d ∈ bound, d.in_use = true) (hz : z.in_use = false)
    (hn : bound.length < MAX_DEVICES_COUNT) :
    hcsr04_get_not_used (bound ++ z :: rest) = some bound.length := by
  unfold hcsr04_get_not_used
  rw [find_slot_take_bound _ bound rest z MAX_DEVICES_COUNT 0 (by intro d hd; simp [h d hd])
    (by simp [hz]) hn]
  simp

/-- Successful attaches fill the free slots from the left, in order. -/
theorem probe_all_shape (DRIVER_MAJOR : Nat) (attaches : List (Nat × ProbeEnv))
    (bound : List hcsr04_data) (m : Nat) (h_bound : ∀ d ∈ bound, d.in_use = true)
    (h_size : bound.length + m = MAX_DEVICES_COUNT) (h_len : attaches.length ≤ m)
    (h_ok : ∀ r ∈ (probe_all DRIVER_MAJOR
      (bound ++ List.replicate m hcsr04_data_zero) attaches).1, r = 0) :
    ∃ fresh, (probe_all DRIVER_MAJOR (bound ++ List.replicate m hcsr04_data_zero) attaches).2 =
        bound ++ fresh ++ List.replicate (m - attaches.length) hcsr04_data_zero ∧
      fresh.map (fun d => d.device) = attaches.map (fun a => some a.1) ∧
      ∀ d ∈ fresh, d.in_use = true := by
  induction attaches generalizing bound m with
  | nil => exact ⟨[], by simp [probe_all], rfl, by simp⟩
  | cons a rest ih =>
    obtain ⟨m', rfl⟩ : ∃ m', m = m' + 1 := ⟨m - 1, by simp at h_len; omega⟩
    have hslot : hcsr04_get_not_used (bound ++ hcsr04_data_zero ::
        List.replicate m' hcsr04_data_zero) = some bound.length :=
      get_not_used_after_bound bound _ _ h_bound rfl (by omega)
    rw [List.replicate_succ] at h_ok ⊢
    simp only [probe_all] at h_ok ⊢
    have hr : (hcsr04_probe DRIVER_MAJOR (bound ++ hcsr04_data_zero ::
        List.replicate m' hcsr04_data_zero) a.1 a.2).1 = 0 :=
      h_ok _ (List.mem_cons_self _ _)
    obtain ⟨d, hd, hd_use, hd_dev⟩ := probe_of_slot DRIVER_MAJOR _ a.1 a.2 _ hslot hr
    rw [set_append_length] at hd
    have hd' : (hcsr04_probe DRIVER_MAJOR (bound ++ hcsr04_data_zero ::
        List.replicate m' hcsr04_data_zero) a.1 a.2).2 =
        (bound ++ [d]) ++ List.replicate m' hcsr04_data_zero := by
      rw [hd]
      simp
    rw [hd'] at h_ok ⊢
    obtain ⟨fresh, h1, h2, h3⟩ := ih (bound ++ [d]) m'
      (by
        intro x hx
        rcases List.mem_append.mp hx with hx | hx
        · exact h_bound x hx
        · rw [List.mem_singleton.mp hx]
          exact hd_use)
      (by simp; omega) (by simp at h_len; omega)
      (fun r hr => h_ok r (List.mem_cons_of_mem _ hr))
    refine ⟨d :: fresh, ?_, ?_, ?_⟩
    · rw [h1]
      simp
    · simp [h2, hd_dev]
    · intro x hx
      rcases List.mem_cons.mp hx with rfl | hx
      · exact hd_use
      · exact h3 x hx

/-- The table after `MAX_DEVICES_COUNT` successful attaches from the initial table: it
has `MAX_DEVICES_COUNT` slots, all in use, bound to the attached devices in order. -/
theorem probe_all_full (DRIVER_MAJOR : Nat) (attaches : List (Nat × ProbeEnv))
    (h_len : attaches.length = MAX_DEVICES_COUNT)
    (h_ok : ∀ r ∈ (probe_all DRIVER_MAJOR hcsr04_devices_init attaches).1, r = 0) :
    ((probe_all DRIVER_MAJOR hcsr04_devices_init attaches).2).length = MAX_DEVICES_COUNT ∧
    ((probe_all DRIVER_MAJOR hcsr04_devices_init attaches).2).map (fun d => d.device) =
      attaches.map (fun a => some a.1) ∧
    ∀ d ∈ (probe_all DRIVER_MAJOR hcsr04_devices_init attaches).2, d.in_use = true := by
  have h := probe_all_shape DRIVER_MAJOR attaches [] MAX_DEVICES_COUNT (by simp) (by simp)
    (by omega) (by simpa [hcsr04_devices_init] using h_ok)
  obtain ⟨fresh, h1, h2, h3⟩ := h
  have h1' : (probe_all DRIVER_MAJOR hcsr04_devices_init attaches).2 = fresh := by
    have : (probe_all DRIVER_MAJOR hcsr04_devices_init attaches).2 =
        (probe_all DRIVER_MAJOR ([] ++ List.replicate MAX_DEVICES_COUNT hcsr04_data_zero)
          attaches).2 := rfl
    rw [this, h1, h_len]
    simp
  rw [h1']
  refine ⟨?_, h2, h3⟩
  have := congrArg List.length h2
  simpa [h_len] using this

/-- With a free slot and a cooperating platform and kernel, `hcsr04_probe` returns 0. -/
theorem probe_succeeds (DRIVER_MAJOR : Nat) (t : List hcsr04_data) (pdev : Nat)
    (env : ProbeEnv) (i : Nat) (h : hcsr04_get_not_used t = some i) (h_env : env.succeeds) :
    (hcsr04_probe DRIVER_MAJOR t pdev env).1 = 0 := by
  obtain ⟨e1, e2, e3, e4, e5, e6⟩ := h_env
  unfold hcsr04_probe
  rw [h]
  cases hl : env.label with
  | none => exact absurd hl e1
  | some label => simp [e2, e3, hcsr04_probe_block, e4, e5, e6]

/-- C9: after `MAX_DEVICES_COUNT = 10` attaches that all returned 0 on the initial
table, every further `hcsr04_probe` returns `EBUSY` and leaves the table as it is.
Detaching any attached device frees exactly the slot it was bound to; on the resulting
table an attach whose platform and kernel calls succeed returns 0, every attach that
returns 0 binds that same slot and changes no other, and after it every
`hcsr04_probe` returns `EBUSY` again. -/
theorem C9_pool_exhaustion (DRIVER_MAJOR : Nat) (attaches : List (Nat × ProbeEnv))
    (results : List Int) (full : List hcsr04_data)
    (h_run : probe_all DRIVER_MAJOR hcsr04_devices_init attaches = (results, full))
    (h_len : attaches.length = MAX_DEVICES_COUNT)
    (h_ok : ∀ r ∈ results, r = 0)
    (pdev : Nat) (h_attached : pdev ∈ attaches.map Prod.fst) :
    (∀ extra env, hcsr04_probe DRIVER_MAJOR full extra env = (EBUSY, full)) ∧
    ∃ slot freed,
      slot < MAX_DEVICES_COUNT ∧
      (attaches.map Prod.fst)[slot]? = some pdev ∧
      hcsr04_remove full pdev = some (0, freed) ∧
      hcsr04_get_not_used freed = some slot ∧
      (∀ j, j ≠ slot → freed[j]? = full[j]?) ∧
      (∀ q env, env.succeeds → (hcsr04_probe DRIVER_MAJOR freed q env).1 = 0) ∧
      (∀ q env, (hcsr04_probe DRIVER_MAJOR freed q env).1 = 0 →
        ∃ d, (hcsr04_probe DRIVER_MAJOR freed q env).2 = full.set slot d ∧
          d.in_use = true ∧ d.device = some q ∧
          ∀ q2 env2, hcsr04_probe DRIVER_MAJOR (full.set slot d) q2 env2 =
            (EBUSY, full.set slot d)) := by
  have hfull : (probe_all DRIVER_MAJOR hcsr04_devices_init attaches).2 = full := by
    rw [h_run]
  have hres : (probe_all DRIVER_MAJOR hcsr04_devices_init attaches).1 = results := by
    rw [h_run]
  obtain ⟨f_len, f_dev, f_use⟩ := probe_all_full DRIVER_MAJOR attaches h_len
    (by rw [hres]; exact h_ok)
  rw [hfull] at f_len f_dev f_use
  refine ⟨fun extra env => probe_full DRIVER_MAJOR full extra env f_use, ?_⟩
  -- the slot found by `hcsr04_get_data`
  have hmem : ∃ d ∈ full.take MAX_DEVICES_COUNT,
      (fun d : hcsr04_data => d.device == some pdev) d = true := by
    have h1 : some pdev ∈ full.map (fun d => d.device) := by
      rw [f_dev]
      obtain ⟨a, ha, rfl⟩ := List.mem_map.mp h_attached
      exact List.mem_map.mpr ⟨a, ha, rfl⟩
    obtain ⟨d, hd, hdev⟩ := List.mem_map.mp h1
    refine ⟨d, ?_, by simp [hdev]⟩
    rw [List.take_of_length_le (by omega)]
    exact hd
  obtain ⟨slot, hfind, hlt, d0, hget, hp⟩ := find_slot_of_mem _ _ 0 hmem
  rw [List.take_of_length_le (by omega)] at hfind hlt hget
  rw [Nat.zero_add] at hfind
  have hdev0 : d0.device = some pdev := by simpa using hp
  have hslot_lt : slot < full.length := hlt
  have hremove : hcsr04_remove full pdev = some (0, full.set slot
      { d0 with in_use := false, device := none, echo_gpio := KPtr.null,
                trigger_gpio := KPtr.null, name := none }) := by
    unfold hcsr04_remove hcsr04_get_data
    rw [List.take_of_length_le (by omega), hfind]
    have hgd : full.getD slot hcsr04_data_zero = d0 := by
      rw [List.getD_eq_getElem?_getD, hget]
      rfl
    simp only [hgd]
  have hfree : hcsr04_get_not_used (full.set slot
      { d0 with in_use := false, device := none, echo_gpio := KPtr.null,
                trigger_gpio := KPtr.null, name := none }) = some slot := by
    unfold hcsr04_get_not_used
    rw [List.take_of_length_le (by simp; omega)]
    rw [find_slot_set _ full slot 0 _ (by intro x hx; simp [f_use x hx]) (by simp) hslot_lt]
    simp
  refine ⟨slot, _, by omega, ?_, hremove, hfree, ?_, ?_, ?_⟩
  · have h2 : (full.map (fun d => d.device))[slot]? = some (some pdev) := by
      simp [hget, hdev0]
    rw [f_dev] at h2
    simp only [List.getElem?_map] at h2 ⊢
    cases ha : attaches[slot]? with
    | none => simp [ha] at h2
    | some a =>
      simp only [ha, Option.map_some', Option.some.injEq] at h2 ⊢
      exact h2
  · intro j hj
    exact List.getElem?_set_ne (Ne.symm hj)
  · intro q env h_env
    exact probe_succeeds DRIVER_MAJOR _ q env slot hfree h_env
  · intro q env hr
    obtain ⟨d, hd, hd_use, hd_dev⟩ := probe_of_slot DRIVER_MAJOR _ q env slot hfree hr
    rw [List.set_set] at hd
    refine ⟨d, hd, hd_use, hd_dev, fun q2 env2 => ?_⟩
    apply probe_full
    intro x hx
    rcases List.mem_or_eq_of_mem_set hx with hx | rfl
    · exact f_use x hx
    · exact hd_use

/-- Whenever a free slot exists and the platform device has its three properties,
`hcsr04_probe` marks that slot in use, whatever it returns. -/
theorem probe_marks_in_use (DRIVER_MAJOR : Nat) (t : List hcsr04_data) (pdev : Nat)
    (env : ProbeEnv) (i : Nat) (label : String) (h : hcsr04_get_not_used t = some i)
    (h_label : env.label = some label) (h_echo : env.echo_gpio_present = true)
    (h_trigger : env.trigger_gpio_present = true) :
    ∃ d, (hcsr04_probe DRIVER_MAJOR t pdev env).2 = t.set i d ∧ d.in_use = true := by
  unfold hcsr04_probe
  rw [h]
  simp only [h_label, h_echo, h_trigger]
  exact ⟨_, rfl, rfl⟩

/-- Function `hcsr04_remove` leaves `device_no` of the slot it frees as it was. -/
theorem remove_keeps_device_no (t : List hcsr04_data) (pdev : Nat) (i : Nat)
    (d : hcsr04_data) (h : hcsr04_get_data t (some pdev) = some i) (hd : t[i]? = some d) :
    ∃ freed, hcsr04_remove t pdev = some (0, freed) ∧
      freed[i]?.map (fun x => (x.in_use, x.device_no)) = some (false, d.device_no) := by
  have hlt : i < t.length := by
    rcases Nat.lt_or_ge i t.length with hlt | hge
    · exact hlt
    · rw [List.getElem?_eq_none hge] at hd
      exact absurd hd (by simp)
  have hgd : t.getD i hcsr04_data_zero = d := by
    rw [List.getD_eq_getElem?_getD, hd]
    rfl
  unfold hcsr04_remove
  rw [h]
  refine ⟨_, rfl, ?_⟩
  simp only [hgd, List.getElem?_set_self hlt]
  rfl

/-- C9 (witness): with ten devices attached on a driver with major 240, the eleventh
`hcsr04_probe` returns `EBUSY` and leaves the table unchanged. -/
theorem C9_pool_exhaustion_witness :
    hcsr04_probe 240 (probe_all 240 hcsr04_devices_init ten_attaches).2 110 env_attach_ok =
      (EBUSY, (probe_all 240 hcsr04_devices_init ten_attaches).2) :=
  (C9_pool_exhaustion 240 ten_attaches
    (probe_all 240 hcsr04_devices_init ten_attaches).1
    (probe_all 240 hcsr04_devices_init ten_attaches).2 rfl (by decide) (by decide)
    104 (by decide)).1 110 env_attach_ok

/-- C10 (failing inputs): on the initial table of a driver with major 240,
(a) an attach in which `gpiod_get` of the echo pin fails returns `ENOENT` and leaves
slot 0 marked in use with an error pointer as echo pin and no trigger pin;
(b) after a successful attach of device 7 and its detach, slot 0 is free but keeps its
`device_no`, which `hcsr04_get_by_devt` still resolves to slot 0;
(c) `hcsr04_open` on that number then marks the slot in use again with both pins NULL. -/
theorem C10_slot_partially_bound :
    (hcsr04_probe 240 hcsr04_devices_init 7 env_echo_fails).1 = ENOENT ∧
    ((hcsr04_probe 240 hcsr04_devices_init 7 env_echo_fails).2)[0]?.map
        (fun d => (d.in_use, d.echo_gpio, d.trigger_gpio)) =
      some (true, KPtr.err 2, KPtr.null) ∧
    (hcsr04_remove (hcsr04_probe 240 hcsr04_devices_init 7 env_attach_ok).2 7).map
        (fun r => ((r.2)[0]?.map (fun d => (d.in_use, d.echo_gpio, d.trigger_gpio, d.device_no)),
          hcsr04_get_by_devt r.2 (MKDEV 240 0))) =
      some (some (false, KPtr.null, KPtr.null, MKDEV 240 0), some 0) ∧
    (hcsr04_remove (hcsr04_probe 240 hcsr04_devices_init 7 env_attach_ok).2 7).map
        (fun r => ((hcsr04_open r.2 (MKDEV 240 0)).1,
          ((hcsr04_open r.2 (MKDEV 240 0)).2.1)[0]?.map
            (fun d => (d.in_use, d.echo_gpio, d.trigger_gpio)))) =
      some (0, some (true, KPtr.null, KPtr.null)) := by
  refine ⟨by decide, by decide, by decide, by decide⟩

/-- C1 (witness): a completed read whose timestamps 0 and 1000 give the distance 0
returns `ENOMSG` and leaves the buffer `[7, 7]` as it was. -/
theorem C1_measurement_check_envelope_witness :
    ∃ exit, hcsr04_read 100 (env_with_outcome ⟨1, 0, 0, 1000⟩) (some hcsr04_data_zero)
        (some [7, 7]) 2 = some exit ∧
      exit.result = ENOMSG ∧ exit.user_buffer = some [7, 7] := by
  obtain ⟨exit, h1, h2, h3, -⟩ := C1_measurement_check_envelope.2.2.2 100
    (env_with_outcome ⟨1, 0, 0, 1000⟩) hcsr04_data_zero [7, 7] rfl rfl rfl
    (by decide) (by decide)
  exact ⟨exit, h1, h2, h3⟩

end Hcsr04
